import Mathlib

/-!
Shallow embedding of the compliance-checker heuristic of
`src/components/ComplianceChecker.tsx` (mimo-check repository).

All scoring and analysis logic of the component is translated here as pure
Lean functions: JavaScript strings become `String`, `text.toLowerCase()`
becomes `lowerStr`, `String.prototype.includes` becomes `containsStr`,
`Math.round` becomes `jsRound` over `ℚ`, machine numbers become `ℤ`/`ℚ`
(all arithmetic in the source stays well inside exact float range), and the
guarded `analyzeNote` handler becomes an `Option`-returning function (the
`none` case is the disabled-trigger no-op).
-/

/-- Status enum of the source: "compliant" | "warning" | "non-compliant". -/
inductive Status where
  | compliant
  | warning
  | nonCompliant
deriving DecidableEq, Repr

/-- Risk enum of the source: "Low" | "Medium" | "High". -/
inductive RiskLevel where
  | Low
  | Medium
  | High
deriving DecidableEq, Repr

/-- The five note types offered by the note-type selector. -/
inductive NoteType where
  | SOAP
  | GIRP
  | BIRP
  | DAP
  | TreatmentPlan
deriving DecidableEq, Repr

/-- The display string of each note type (the `SelectItem` values). -/
def noteTypeName : NoteType → String
  | .SOAP => "SOAP"
  | .GIRP => "GIRP"
  | .BIRP => "BIRP"
  | .DAP => "DAP"
  | .TreatmentPlan => "Treatment Plan"

/-- `charsAgree needle hay`: `needle` is an initial run of `hay`. -/
def charsAgree : List Char → List Char → Bool
  | [], _ => true
  | _ :: _, [] => false
  | a :: as, b :: bs => a == b && charsAgree as bs

/-- `charsContain needle hay`: `needle` occurs contiguously inside `hay`. -/
def charsContain (needle : List Char) : List Char → Bool
  | [] => needle.isEmpty
  | b :: bs => charsAgree needle (b :: bs) || charsContain needle bs

/-- Model of JavaScript `hay.includes(needle)` (substring containment). -/
def containsStr (hay needle : String) : Bool :=
  charsContain needle.data hay.data

/-- Model of JavaScript `String.prototype.toLowerCase` (ASCII-faithful). -/
def lowerStr (s : String) : String :=
  String.mk (s.data.map Char.toLower)

/-- Model of JavaScript `String.prototype.trim`: strip whitespace at both ends. -/
def jsTrim (s : String) : String :=
  String.mk (((s.data.dropWhile Char.isWhitespace).reverse.dropWhile Char.isWhitespace).reverse)

/-- Model of the ubiquitous source idiom `text.toLowerCase().includes(needle)`. -/
def inc (text needle : String) : Bool :=
  containsStr (lowerStr text) needle

/-- One position of the regex `/F\d{2}\.\d/`: letter `F`, two digits, a dot, a digit. -/
def dsmAt : List Char → Bool
  | 'F' :: d1 :: d2 :: '.' :: d3 :: _ => d1.isDigit && d2.isDigit && d3.isDigit
  | _ => false

/-- Search every suffix for the DSM code pattern. -/
def dsmSearch : List Char → Bool
  | [] => false
  | c :: cs => dsmAt (c :: cs) || dsmSearch cs

/-- Model of `text.match(/F\d{2}\.\d/)` being non-null (on the raw text). -/
def hasDSMPattern (text : String) : Bool :=
  dsmSearch text.data

/-- Model of JavaScript `Math.round`: round half toward positive infinity,
that is `⌊q + 1/2⌋`. Written on the numerator/denominator so the kernel can
evaluate it (`/` on `ℤ` is `Int.ediv`, which floors for positive divisors);
`jsRound_eq_floor` below proves it equal to the textbook formula. -/
def jsRound (q : ℚ) : ℤ :=
  (2 * q.num + (q.den : ℤ)) / (2 * (q.den : ℤ))

/-- Model of `s.charAt(0).toUpperCase() + s.slice(1)`. -/
def capitalize (s : String) : String :=
  match s.data with
  | [] => ""
  | c :: cs => String.mk (c.toUpper :: cs)

/-- Model of `.filter((rec, index, arr) => arr.indexOf(rec) === index)`:
keep the first occurrence of each string. `seen` holds strings already kept. -/
def jsDedupGo (seen : List String) : List String → List String
  | [] => []
  | a :: rest =>
      if seen.contains a then jsDedupGo seen rest
      else a :: jsDedupGo (a :: seen) rest

/-- First-occurrence deduplication, as the source's `filter`/`indexOf` idiom. -/
def jsDedup (l : List String) : List String :=
  jsDedupGo [] l

/-- The `formatConfigs` table of `detectNoteFormat`. -/
def formatConfigs : NoteType → List String
  | .SOAP => ["subjective", "objective", "assessment", "plan"]
  | .GIRP => ["goals", "intervention", "response", "plan"]
  | .BIRP => ["behavior", "intervention", "response", "plan"]
  | .DAP => ["data", "assessment", "plan"]
  | .TreatmentPlan => ["diagnoses", "goals", "interventions", "timeframes"]

/-- The per-section match predicate of `detectNoteFormat` (plain containment
plus the `data` / `diagnoses` / `timeframes` synonym rules). -/
def sectionMatches (normalizedText s : String) : Bool :=
  containsStr normalizedText s ||
  (s == "data" && (containsStr normalizedText "session" || containsStr normalizedText "attendance")) ||
  (s == "diagnoses" && (containsStr normalizedText "diagnosis" || containsStr normalizedText "dsm")) ||
  (s == "timeframes" && (containsStr normalizedText "timeline" || containsStr normalizedText "duration"))

/-- The object returned by `detectNoteFormat`. -/
structure DetectionResult where
  isValidFormat : Bool
  foundSections : List String
  missingSections : List String
  confidence : ℚ
  status : Status
  riskLevel : RiskLevel
  overallScore : ℤ
deriving DecidableEq, Repr

/-- Translation of `detectNoteFormat(text, noteType)`. -/
def detectNoteFormat (text : String) (noteType : NoteType) : DetectionResult :=
  let requiredSections := formatConfigs noteType
  let normalizedText := lowerStr text
  let foundSections := requiredSections.filter (fun s => sectionMatches normalizedText s)
  let missingSectionsCount := requiredSections.length - foundSections.length
  let confidence : ℚ := mkRat (foundSections.length : ℤ) requiredSections.length
  let statusRisk : Status × RiskLevel :=
    if missingSectionsCount = 0 then (.compliant, .Low)
    else if missingSectionsCount ≤ 1 then (.warning, .Medium)
    else (.nonCompliant, .High)
  { isValidFormat := decide (0 < foundSections.length)
    foundSections := foundSections.map capitalize
    missingSections :=
      (requiredSections.filter (fun s => !foundSections.contains s)).map capitalize
    confidence := confidence
    status := statusRisk.1
    riskLevel := statusRisk.2
    overallScore := jsRound (mkRat (100 * foundSections.length : ℤ) requiredSections.length) }

/-- One element of the `soapAnalysis` array: section label, presence flag, and
the ordered named boolean triggers. -/
structure SoapSectionSpec where
  sectionLabel : String
  present : Bool
  triggers : List (String × Bool)
deriving DecidableEq, Repr

/-- The `soapAnalysis` array of `analyzeSOAPContent`, triggers in object order. -/
def soapAnalysis (text : String) (foundSections : List String) : List SoapSectionSpec :=
  [ { sectionLabel := "Subjective"
      present := foundSections.contains "Subjective"
      triggers :=
        [ ("missingPatientVoice",
            !inc text "patient reports" && !inc text "client states" && !inc text "patient describes"),
          ("vagueMoodSymptoms",
            !inc text "feeling" && !inc text "mood" && !inc text "anxiety" && !inc text "depression") ] },
    { sectionLabel := "Objective"
      present := foundSections.contains "Objective"
      triggers :=
        [ ("noMeasurableData",
            !inc text "appears" && !inc text "observed" && !inc text "vital" && !inc text "mse"),
          ("vagueObservation",
            !inc text "well-groomed" && !inc text "cooperative" && !inc text "eye contact") ] },
    { sectionLabel := "Assessment"
      present := foundSections.contains "Assessment"
      triggers :=
        [ ("missingDSMCode", !hasDSMPattern text && !inc text "dsm"),
          ("noRationale",
            !inc text "based on" && !inc text "evidenced by" && !inc text "due to"),
          ("noSeverity",
            !inc text "mild" && !inc text "moderate" && !inc text "severe") ] },
    { sectionLabel := "Plan"
      present := foundSections.contains "Plan"
      triggers :=
        [ ("noTimeline",
            !inc text "week" && !inc text "month" && !inc text "follow-up" && !inc text "next"),
          ("noMeasurableGoal",
            !inc text "goal" && !inc text "target" && !inc text "objective") ] } ]

/-- The `getSectionRequirement` lookup with its default. -/
def getSectionRequirement (s : String) : String :=
  if s == "Subjective" then "client\x27s perspective and reported symptoms in their own words"
  else if s == "Objective" then "observed and measured facts including appearance, behavior, MSE, and vitals"
  else if s == "Assessment" then "clinical impressions with DSM-5-TR diagnosis codes and severity"
  else if s == "Plan" then "treatment goals, interventions, and next steps with measurable outcomes"
  else "comprehensive documentation"

/-- The `getTriggerMessage` nested lookup with its default. -/
def getTriggerMessage (sectionLabel trigger : String) : String :=
  if sectionLabel == "Subjective" then
    if trigger == "missingPatientVoice" then
      "Missing patient\x27s own words - document direct quotes or paraphrased statements"
    else if trigger == "vagueMoodSymptoms" then
      "Vague mood/symptom description - specify emotional states and symptoms"
    else "Documentation deficiency identified"
  else if sectionLabel == "Objective" then
    if trigger == "noMeasurableData" then
      "No measurable observational data - include appearance, behavior, MSE findings"
    else if trigger == "vagueObservation" then
      "Vague observations - provide specific behavioral and physical descriptions"
    else "Documentation deficiency identified"
  else if sectionLabel == "Assessment" then
    if trigger == "missingDSMCode" then
      "Missing DSM-5-TR diagnostic code - include specific F-code diagnosis"
    else if trigger == "noRationale" then
      "No diagnostic rationale provided - explain clinical reasoning"
    else if trigger == "noSeverity" then
      "Missing severity specifier - document mild/moderate/severe classification"
    else "Documentation deficiency identified"
  else if sectionLabel == "Plan" then
    if trigger == "noTimeline" then
      "No treatment timeline specified - include follow-up schedule and timeframes"
    else if trigger == "noMeasurableGoal" then
      "No measurable treatment goals - define specific, achievable objectives"
    else "Documentation deficiency identified"
  else "Documentation deficiency identified"

/-- The `getCorrection` lookup; the trigger-name list argument is accepted but,
as in the source, never consulted. -/
def getCorrection (sectionLabel : String) (triggers : List String) : String :=
  if sectionLabel == "Subjective" then
    "Add client\x27s direct statements about symptoms, feelings, and concerns using quotes or clear paraphrasing"
  else if sectionLabel == "Objective" then
    "Include specific observations: appearance, behavior, speech, mood, affect, thought process, and mental status exam findings"
  else if sectionLabel == "Assessment" then
    "Provide DSM-5-TR diagnosis with F-code, severity specifier, and clinical rationale for diagnosis"
  else if sectionLabel == "Plan" then
    "Document specific treatment interventions, measurable goals, timeline for follow-up, and next appointment date"
  else "Improve documentation completeness"

/-- An element of the section-finding list (`section` is a Lean keyword, so
the field is `sectionLabel`; the optional `triggers` array is a plain list,
`[]` standing for the absent/empty cases which the consumers treat alike). -/
structure SectionFinding where
  sectionLabel : String
  status : Status
  issues : List String
  triggers : List String
deriving DecidableEq, Repr

/-- The body of the `soapAnalysis.map` callback in `analyzeSOAPContent`. -/
def analyzeSOAPSection (a : SoapSectionSpec) : SectionFinding :=
  if !a.present then
    { sectionLabel := a.sectionLabel
      status := .nonCompliant
      issues := ["❌ " ++ a.sectionLabel ++ " section missing from note"]
      triggers := ["Missing required " ++ a.sectionLabel ++ " section - must document "
        ++ getSectionRequirement a.sectionLabel] }
  else
    let triggeredIssues :=
      (a.triggers.filter (fun p => p.2)).map (fun p => getTriggerMessage a.sectionLabel p.1)
    let status : Status :=
      if triggeredIssues.length = 0 then .compliant
      else if triggeredIssues.length ≤ 1 then .warning
      else .nonCompliant
    { sectionLabel := a.sectionLabel
      status := status
      issues := triggeredIssues
      triggers :=
        if 0 < triggeredIssues.length then
          [getCorrection a.sectionLabel ((a.triggers.filter (fun p => p.2)).map (fun p => p.1))]
        else [] }

/-- Translation of `analyzeSOAPContent(text, foundSections, selectedState)`
(the state argument is accepted and, as in the source, unused). -/
def analyzeSOAPContent (text : String) (foundSections : List String)
    (selectedState : String) : List SectionFinding :=
  (soapAnalysis text foundSections).map analyzeSOAPSection

/-- The shared per-section body of the four presence-only analyzers. -/
def simpleFinding (foundSections : List String) (s : String) : SectionFinding :=
  if foundSections.contains s then
    { sectionLabel := s, status := .compliant, issues := [], triggers := [] }
  else
    { sectionLabel := s
      status := .nonCompliant
      issues := ["Missing " ++ s ++ " section"]
      triggers := ["Add " ++ lowerStr s ++ " documentation"] }

/-- Translation of `analyzeGIRPContent`. -/
def analyzeGIRPContent (text : String) (foundSections : List String)
    (selectedState : String) : List SectionFinding :=
  (["Goals", "Intervention", "Response", "Plan"]).map (simpleFinding foundSections)

/-- Translation of `analyzeBIRPContent`. -/
def analyzeBIRPContent (text : String) (foundSections : List String)
    (selectedState : String) : List SectionFinding :=
  (["Behavior", "Intervention", "Response", "Plan"]).map (simpleFinding foundSections)

/-- Translation of `analyzeDAPContent`. -/
def analyzeDAPContent (text : String) (foundSections : List String)
    (selectedState : String) : List SectionFinding :=
  (["Data", "Assessment", "Plan"]).map (simpleFinding foundSections)

/-- Translation of `analyzeTreatmentPlanContent`. -/
def analyzeTreatmentPlanContent (text : String) (foundSections : List String)
    (selectedState : String) : List SectionFinding :=
  (["Diagnoses", "Goals", "Interventions", "Timeframes"]).map (simpleFinding foundSections)

/-- Translation of the `analyzeSectionContent` dispatcher. -/
def analyzeSectionContent (text : String) (foundSections : List String)
    (selectedState : String) (noteType : NoteType) : List SectionFinding :=
  match noteType with
  | .SOAP => analyzeSOAPContent text foundSections selectedState
  | .GIRP => analyzeGIRPContent text foundSections selectedState
  | .BIRP => analyzeBIRPContent text foundSections selectedState
  | .DAP => analyzeDAPContent text foundSections selectedState
  | .TreatmentPlan => analyzeTreatmentPlanContent text foundSections selectedState

/-- An element of the compliance-domain list. -/
structure ComplianceDomain where
  domain : String
  score : ℤ
  status : Status
  findings : List String
deriving DecidableEq, Repr

/-- Translation of `analyzeComplianceDomains(soapFindings, overallScore)`
(the findings argument is accepted and, as in the source, unused). -/
def analyzeComplianceDomains (soapFindings : List SectionFinding)
    (overallScore : ℤ) : List ComplianceDomain :=
  [ { domain := "Medical Necessity Demonstration"
      score := max 60 (overallScore - 10)
      status :=
        if 80 ≤ overallScore then .compliant
        else if 65 ≤ overallScore then .warning
        else .nonCompliant
      findings :=
        if overallScore < 80 then
          ["Insufficient documentation of medical necessity", "Need stronger clinical justification"]
        else [] },
    { domain := "Documentation Completeness"
      score := overallScore
      status :=
        if 85 ≤ overallScore then .compliant
        else if 70 ≤ overallScore then .warning
        else .nonCompliant
      findings :=
        if overallScore < 85 then
          ["Missing required documentation elements", "Incomplete section coverage"]
        else [] },
    { domain := "Individualization Requirements"
      score := min 100 (overallScore + 5)
      status :=
        if 75 ≤ overallScore then .compliant
        else if 60 ≤ overallScore then .warning
        else .nonCompliant
      findings :=
        if overallScore < 75 then
          ["Treatment plan lacks individualization", "Generic approach documented"]
        else [] },
    { domain := "Regulatory Compliance"
      score := max 50 (overallScore - 15)
      status :=
        if 90 ≤ overallScore then .compliant
        else if 75 ≤ overallScore then .warning
        else .nonCompliant
      findings :=
        if overallScore < 90 then
          ["Regulatory requirements not fully met", "Risk of audit findings"]
        else [] },
    { domain := "Audit Defensibility"
      score := max 40 (overallScore - 20)
      status :=
        if 85 ≤ overallScore then .compliant
        else if 70 ≤ overallScore then .warning
        else .nonCompliant
      findings :=
        if overallScore < 85 then
          ["Documentation may not withstand audit scrutiny", "Strengthen evidence base"]
        else [] } ]

/-- The `ComplianceResult` interface. -/
structure ComplianceResult where
  detectedFormat : String
  confidence : ℚ
  riskLevel : RiskLevel
  overallScore : ℤ
  complianceDomains : List ComplianceDomain
  sectionFindings : List SectionFinding
  missingSections : List String
  recommendations : List String
  references : List String
deriving DecidableEq, Repr

/-- The `reduce` in `analyzeNote` summing the domain scores. -/
def domainScoreSum (domains : List ComplianceDomain) : ℤ :=
  domains.foldl (fun acc d => acc + d.score) 0

/-- The `invalidResult` record literal of `analyzeNote` (invalid-format branch). -/
def invalidResult (selectedState : String) (selectedNoteType : NoteType)
    (detection : DetectionResult) : ComplianceResult :=
  { detectedFormat := "Invalid " ++ noteTypeName selectedNoteType ++ " format"
    confidence := 0
    riskLevel := .High
    overallScore := 0
    complianceDomains := []
    sectionFindings := []
    missingSections := detection.missingSections
    recommendations :=
      ["This note does not contain the required " ++ noteTypeName selectedNoteType ++ " sections",
       "Please ensure your note contains the required sections for "
         ++ noteTypeName selectedNoteType ++ " format"]
    references :=
      [selectedState ++ " Medicaid Provider Manual - Clinical Documentation Standards",
       "CMS Medicare Progress Note Guidelines - Section 1861(s)(2)",
       selectedState ++ " Administrative Code - Mental Health Documentation Requirements"] }

/-- The `result` record literal of `analyzeNote` (valid-format branch),
with its `sectionFindings`, `complianceDomains`, `domainAverage` and
`adjustedScore` local constants. -/
def validResult (noteText selectedState selectedPayer : String)
    (selectedNoteType : NoteType) (detection : DetectionResult) : ComplianceResult :=
  let sectionFindings :=
    analyzeSectionContent noteText detection.foundSections selectedState selectedNoteType
  let complianceDomains := analyzeComplianceDomains sectionFindings detection.overallScore
  let domainAverage :=
    jsRound (mkRat (domainScoreSum complianceDomains) complianceDomains.length)
  let adjustedScore :=
    jsRound (mkRat (detection.overallScore + domainAverage) 2)
  { detectedFormat := noteTypeName selectedNoteType ++ " Note"
    confidence := detection.confidence
    riskLevel :=
      if 80 ≤ adjustedScore then .Low
      else if 65 ≤ adjustedScore then .Medium
      else .High
    overallScore := adjustedScore
    complianceDomains := complianceDomains
    sectionFindings := sectionFindings
    missingSections := detection.missingSections
    recommendations :=
      jsDedup
        (detection.missingSections.map
            (fun s => "❌ Add missing " ++ s ++ " section with comprehensive documentation")
          ++ sectionFindings.flatMap (fun f => f.triggers)
          ++ ["Ensure full compliance with " ++ selectedState ++ " state regulations",
              "Verify " ++ selectedPayer ++ " billing and documentation requirements",
              "Include provider signature, credentials, and date",
              "Review against audit checklist before submission"])
    references :=
      [selectedState ++ " Medicaid Provider Manual - Clinical Documentation Standards",
       "CMS Medicare Progress Note Guidelines - Section 1861(s)(2)",
       selectedState ++ " Administrative Code - Mental Health Documentation Requirements",
       (if selectedPayer == "medicaid" then
          selectedState ++ " Medicaid Mental Health Services Coverage"
        else if selectedPayer == "medicare" then
          "Medicare Claims Processing Manual Chapter 12"
        else "Commercial Insurance Prior Authorization Guidelines"),
       "DSM-5-TR Diagnostic Criteria and Documentation Standards"] }

/-- Translation of the `analyzeNote` handler (minus the simulated delay and
the React state writes): `none` is the guarded no-op when a selector is empty
or the text trims to nothing; otherwise the produced `ComplianceResult`. -/
def analyzeNote (noteText selectedState selectedPayer : String)
    (selectedNoteType : NoteType) : Option ComplianceResult :=
  if jsTrim noteText == "" || selectedState == "" || selectedPayer == "" then none
  else
    let detection := detectNoteFormat noteText selectedNoteType
    if !detection.isValidFormat then
      some (invalidResult selectedState selectedNoteType detection)
    else
      some (validResult noteText selectedState selectedPayer selectedNoteType detection)

/-! ## Helper lemmas -/

/-- `jsRound` is the textbook round-half-up: `⌊q + 1/2⌋`. -/
theorem jsRound_eq_floor (q : ℚ) : jsRound q = ⌊q + 1 / 2⌋ := by
  have hd : ((q.den : ℚ)) ≠ 0 := by
    exact_mod_cast q.den_ne_zero
  have key : q + 1 / 2 = ((2 * q.num + (q.den : ℤ) : ℤ) : ℚ) / ((2 * q.den : ℕ) : ℚ) := by
    conv_lhs => rw [← Rat.num_div_den q]
    push_cast
    field_simp
    ring
  rw [jsRound, key, Rat.floor_intCast_div_natCast]
  push_cast
  ring_nf

theorem jsRound_nonneg {q : ℚ} (h : 0 ≤ q) : 0 ≤ jsRound q := by
  rw [jsRound_eq_floor]
  exact Int.le_floor.mpr (by push_cast; linarith)

theorem jsRound_le {q : ℚ} {c : ℤ} (h : q ≤ (c : ℚ)) : jsRound q ≤ c := by
  rw [jsRound_eq_floor]
  have hlt : ⌊q + 1 / 2⌋ < c + 1 := Int.floor_lt.mpr (by push_cast; linarith)
  omega

/-- `jsDedupGo` produces a duplicate-free list avoiding `seen`. -/
theorem jsDedupGo_spec (l : List String) : ∀ seen : List String,
    (jsDedupGo seen l).Nodup ∧ ∀ x ∈ jsDedupGo seen l, x ∉ seen := by
  induction l with
  | nil => intro seen; simp [jsDedupGo]
  | cons a rest ih =>
    intro seen
    by_cases h : a ∈ seen
    · simpa [jsDedupGo, h] using ih seen
    · obtain ⟨hnd, havoid⟩ := ih (a :: seen)
      have hgo : jsDedupGo seen (a :: rest) = a :: jsDedupGo (a :: seen) rest := by
        simp [jsDedupGo, h]
      rw [hgo]
      refine ⟨?_, ?_⟩
      · exact List.Nodup.cons (fun hx => by simpa using havoid a hx) hnd
      · intro x hx
        rcases List.mem_cons.mp hx with rfl | hx
        · exact h
        · exact fun hs => havoid x hx (by simp [hs])

/-- Any `jsDedup` output has no duplicate strings. -/
theorem jsDedup_nodup (l : List String) : (jsDedup l).Nodup :=
  (jsDedupGo_spec l []).1

/-- The detector's `confidence` field is the found/required ratio
(`foundSections.length / requiredSections.length` of the source). -/
theorem detect_confidence_spec (text : String) (ty : NoteType) :
    (detectNoteFormat text ty).confidence =
      (((formatConfigs ty).filter (fun s => sectionMatches (lowerStr text) s)).length : ℚ) /
        ((formatConfigs ty).length : ℚ) := by
  simp [detectNoteFormat, Rat.mkRat_eq_div]

/-- The detector's `overallScore` field is `Math.round(confidence * 100)`. -/
theorem detect_overallScore_spec (text : String) (ty : NoteType) :
    (detectNoteFormat text ty).overallScore =
      jsRound ((detectNoteFormat text ty).confidence * 100) := by
  simp only [detectNoteFormat]
  congr 1
  rw [Rat.mkRat_eq_div, Rat.mkRat_eq_div]
  push_cast
  ring

/-- Run equation: guard passed, invalid format. -/
theorem analyzeNote_run_invalid (noteText selectedState selectedPayer : String)
    (ty : NoteType) (h1 : jsTrim noteText ≠ "") (h2 : selectedState ≠ "")
    (h3 : selectedPayer ≠ "")
    (hv : (detectNoteFormat noteText ty).isValidFormat = false) :
    analyzeNote noteText selectedState selectedPayer ty =
      some (invalidResult selectedState ty (detectNoteFormat noteText ty)) := by
  simp [analyzeNote, h1, h2, h3, hv]

/-- Run equation: guard passed, valid format. -/
theorem analyzeNote_run_valid (noteText selectedState selectedPayer : String)
    (ty : NoteType) (h1 : jsTrim noteText ≠ "") (h2 : selectedState ≠ "")
    (h3 : selectedPayer ≠ "")
    (hv : (detectNoteFormat noteText ty).isValidFormat = true) :
    analyzeNote noteText selectedState selectedPayer ty =
      some (validResult noteText selectedState selectedPayer ty (detectNoteFormat noteText ty)) := by
  simp [analyzeNote, h1, h2, h3, hv]

/-- None of the five per-type analyzers reads the selected state. -/
theorem analyzeSectionContent_state_irrel (text : String) (fs : List String)
    (st st' : String) (ty : NoteType) :
    analyzeSectionContent text fs st ty = analyzeSectionContent text fs st' ty := by
  cases ty <;> rfl

/-- Status of one SOAP section finding, by presence and fired-trigger count. -/
theorem analyzeSOAPSection_status (a : SoapSectionSpec) :
    (analyzeSOAPSection a).status =
      (if a.present then
        (if (a.triggers.filter (fun p => p.2)).length = 0 then Status.compliant
         else if (a.triggers.filter (fun p => p.2)).length = 1 then Status.warning
         else Status.nonCompliant)
      else Status.nonCompliant) := by
  unfold analyzeSOAPSection
  by_cases h : a.present
  · rcases hn : (a.triggers.filter (fun p => p.2)).length with _ | m
    · simp [h, hn]
    · rcases m with _ | k
      · simp [h, hn]
      · simp [h, hn]
  · simp [h]

/-- A SOAP finding keeps its spec's section label. -/
theorem analyzeSOAPSection_label (a : SoapSectionSpec) :
    (analyzeSOAPSection a).sectionLabel = a.sectionLabel := by
  unfold analyzeSOAPSection
  split
  · rfl
  · rfl

/-- C2: For the SOAP note type, the four sections Subjective, Objective,
Assessment and Plan each get a finding, and a finding's status is determined
by its deficiency triggers: an absent section is always non-compliant, a
present section is compliant when zero triggers fire, warning when exactly
one fires, and non-compliant when two or more fire. -/
theorem c2_soap_section_status_tiers (text : String) (fs : List String) (st : String) :
    (analyzeSOAPContent text fs st).map (fun f => f.sectionLabel) =
        ["Subjective", "Objective", "Assessment", "Plan"] ∧
    (analyzeSOAPContent text fs st).map (fun f => f.status) =
      (soapAnalysis text fs).map (fun a =>
        if a.present then
          (if (a.triggers.filter (fun p => p.2)).length = 0 then Status.compliant
           else if (a.triggers.filter (fun p => p.2)).length = 1 then Status.warning
           else Status.nonCompliant)
        else Status.nonCompliant) := by
  constructor
  · rw [analyzeSOAPContent, List.map_map]
    simp [soapAnalysis, Function.comp, analyzeSOAPSection_label]
  · rw [analyzeSOAPContent, List.map_map]
    exact List.map_congr_left (fun a _ => analyzeSOAPSection_status a)

/-- C4 counterexample: the claim asserts the detector's missing-count
thresholds are type-dependent, with some note types tolerating up to 2
missing sections before the worst tier. In the code the thresholds are
uniform: for every one of the five note types an input with exactly 2
missing sections already lands in the worst tier (non-compliant / High). -/
theorem c4_counterexample :
    (detectNoteFormat "subjective objective" NoteType.SOAP).missingSections.length = 2 ∧
    (detectNoteFormat "subjective objective" NoteType.SOAP).status = Status.nonCompliant ∧
    (detectNoteFormat "subjective objective" NoteType.SOAP).riskLevel = RiskLevel.High ∧
    (detectNoteFormat "goals intervention" NoteType.GIRP).missingSections.length = 2 ∧
    (detectNoteFormat "goals intervention" NoteType.GIRP).status = Status.nonCompliant ∧
    (detectNoteFormat "goals intervention" NoteType.GIRP).riskLevel = RiskLevel.High ∧
    (detectNoteFormat "behavior intervention" NoteType.BIRP).missingSections.length = 2 ∧
    (detectNoteFormat "behavior intervention" NoteType.BIRP).status = Status.nonCompliant ∧
    (detectNoteFormat "behavior intervention" NoteType.BIRP).riskLevel = RiskLevel.High ∧
    (detectNoteFormat "data" NoteType.DAP).missingSections.length = 2 ∧
    (detectNoteFormat "data" NoteType.DAP).status = Status.nonCompliant ∧
    (detectNoteFormat "data" NoteType.DAP).riskLevel = RiskLevel.High ∧
    (detectNoteFormat "diagnoses goals" NoteType.TreatmentPlan).missingSections.length = 2 ∧
    (detectNoteFormat "diagnoses goals" NoteType.TreatmentPlan).status = Status.nonCompliant ∧
    (detectNoteFormat "diagnoses goals" NoteType.TreatmentPlan).riskLevel = RiskLevel.High := by
  decide

/-- C4 (amended): the detector's missing-count thresholds are the same for
every note type: 0 missing sections yield compliant/Low, exactly 1 yields
warning/Medium, and 2 or more yield non-compliant/High. -/
theorem c4_amended_uniform_thresholds (text : String) (ty : NoteType) :
    ((detectNoteFormat text ty).status, (detectNoteFormat text ty).riskLevel) =
      (if (formatConfigs ty).length -
            ((formatConfigs ty).filter (fun s => sectionMatches (lowerStr text) s)).length = 0 then
         (Status.compliant, RiskLevel.Low)
       else if (formatConfigs ty).length -
            ((formatConfigs ty).filter (fun s => sectionMatches (lowerStr text) s)).length ≤ 1 then
         (Status.warning, RiskLevel.Medium)
       else (Status.nonCompliant, RiskLevel.High)) := by
  simp only [detectNoteFormat]

/-- A SOAP finding is compliant exactly when it carries no issue strings. -/
theorem analyzeSOAPSection_compliant_iff (a : SoapSectionSpec) :
    ((analyzeSOAPSection a).status = Status.compliant ↔ (analyzeSOAPSection a).issues = []) := by
  unfold analyzeSOAPSection
  by_cases h : a.present
  · rcases hn : (a.triggers.filter (fun p => p.2)).length with _ | m
    · have hnil : a.triggers.filter (fun p => p.2) = [] := List.length_eq_zero.mp hn
      simp [h, hn, hnil]
    · have hne : a.triggers.filter (fun p => p.2) ≠ [] := by
        intro he
        rw [he] at hn
        simp at hn
      rcases m with _ | k <;> simp [h, hn, hne]
  · simp [h]

/-- A presence-only finding is compliant exactly when it carries no issues. -/
theorem simpleFinding_compliant_iff (fs : List String) (s : String) :
    ((simpleFinding fs s).status = Status.compliant ↔ (simpleFinding fs s).issues = []) := by
  unfold simpleFinding
  by_cases h : s ∈ fs <;> simp [h]

/-- C10: every section finding produced by any of the five per-note-type
analyzers has status compliant if and only if its issues list is empty: a
warning or non-compliant finding always carries at least one issue string,
and a compliant finding carries none. -/
theorem c10_compliant_iff_no_issues (text : String) (fs : List String) (st : String)
    (ty : NoteType) (f : SectionFinding)
    (hf : f ∈ analyzeSectionContent text fs st ty) :
    (f.status = Status.compliant ↔ f.issues = []) := by
  cases ty with
  | SOAP =>
    simp only [analyzeSectionContent, analyzeSOAPContent, List.mem_map] at hf
    obtain ⟨a, _, rfl⟩ := hf
    exact analyzeSOAPSection_compliant_iff a
  | GIRP =>
    simp only [analyzeSectionContent, analyzeGIRPContent, List.mem_map] at hf
    obtain ⟨s, _, rfl⟩ := hf
    exact simpleFinding_compliant_iff fs s
  | BIRP =>
    simp only [analyzeSectionContent, analyzeBIRPContent, List.mem_map] at hf
    obtain ⟨s, _, rfl⟩ := hf
    exact simpleFinding_compliant_iff fs s
  | DAP =>
    simp only [analyzeSectionContent, analyzeDAPContent, List.mem_map] at hf
    obtain ⟨s, _, rfl⟩ := hf
    exact simpleFinding_compliant_iff fs s
  | TreatmentPlan =>
    simp only [analyzeSectionContent, analyzeTreatmentPlanContent, List.mem_map] at hf
    obtain ⟨s, _, rfl⟩ := hf
    exact simpleFinding_compliant_iff fs s

/-- Witness for C10 at a concrete finding of a concrete GIRP run. -/
theorem c10_witness :
    ((⟨"Goals", Status.compliant, [], []⟩ : SectionFinding)
        ∈ analyzeSectionContent "x" ["Goals"] "GA" NoteType.GIRP) ∧
    ((⟨"Goals", Status.compliant, [], []⟩ : SectionFinding).status = Status.compliant ↔
      (⟨"Goals", Status.compliant, [], []⟩ : SectionFinding).issues = []) :=
  ⟨by decide, c10_compliant_iff_no_issues "x" ["Goals"] "GA" NoteType.GIRP
    ⟨"Goals", Status.compliant, [], []⟩ (by decide)⟩

/-- If the lowercased text contains "assessment", the SOAP detector lists
"Assessment" among the found sections. -/
theorem assessment_mem_foundSections (text : String)
    (h : inc text "assessment" = true) :
    (detectNoteFormat text NoteType.SOAP).foundSections.contains "Assessment" = true := by
  simp only [detectNoteFormat]
  have hmatch : sectionMatches (lowerStr text) "assessment" = true := by
    simp only [inc] at h
    simp [sectionMatches, h]
  have hmem : "assessment" ∈
      (formatConfigs NoteType.SOAP).filter (fun s => sectionMatches (lowerStr text) s) :=
    List.mem_filter.mpr ⟨by simp [formatConfigs], hmatch⟩
  simpa using List.mem_map.mpr ⟨"assessment", hmem, by decide⟩

/-- C9 (amended): for the SOAP type, a note text that contains "assessment"
but has no DSM-style code pattern, does not contain the substring "dsm",
and lacks the severity words fires at least the `missingDSMCode` and
`noSeverity` Assessment triggers, so the Assessment finding (index 2) is
non-compliant with at least two issues. (The amendment adds the absence of
the "dsm" substring, without which the `missingDSMCode` trigger does not
fire.) -/
theorem c9_amended_assessment_noncompliant (text st : String)
    (ha : inc text "assessment" = true)
    (hpat : hasDSMPattern text = false)
    (hdsm : inc text "dsm" = false)
    (hmild : inc text "mild" = false)
    (hmod : inc text "moderate" = false)
    (hsev : inc text "severe" = false) :
    ∃ f, (analyzeSOAPContent text (detectNoteFormat text NoteType.SOAP).foundSections st).get? 2 =
        some f ∧
      f.sectionLabel = "Assessment" ∧ 2 ≤ f.issues.length ∧ f.status = Status.nonCompliant := by
  have hfound : "Assessment" ∈ (detectNoteFormat text NoteType.SOAP).foundSections := by
    simpa using assessment_mem_foundSections text ha
  refine ⟨_, rfl, ?_⟩
  cases hb : (!inc text "based on" && !inc text "evidenced by" && !inc text "due to") <;>
    simp [analyzeSOAPSection, hfound, hpat, hdsm, hmild, hmod, hsev, hb]

/-- C9 counterexample: a text that satisfies every hypothesis of the claim
(contains "assessment", no F-digit-digit-dot-digit pattern, no severity
words) yet fires only ONE Assessment trigger, because `missingDSMCode` also
requires the substring "dsm" to be absent and this text contains "dsm". The
Assessment finding is then "warning" with a single issue, not
"non-compliant" with two. -/
theorem c9_counterexample :
    inc "Assessment: dsm diagnosis deferred, based on intake" "assessment" = true ∧
    hasDSMPattern "Assessment: dsm diagnosis deferred, based on intake" = false ∧
    inc "Assessment: dsm diagnosis deferred, based on intake" "mild" = false ∧
    inc "Assessment: dsm diagnosis deferred, based on intake" "moderate" = false ∧
    inc "Assessment: dsm diagnosis deferred, based on intake" "severe" = false ∧
    (analyzeSOAPContent "Assessment: dsm diagnosis deferred, based on intake"
        (detectNoteFormat "Assessment: dsm diagnosis deferred, based on intake"
          NoteType.SOAP).foundSections "GA").get? 2 =
      some
        { sectionLabel := "Assessment"
          status := Status.warning
          issues := ["Missing severity specifier - document mild/moderate/severe classification"]
          triggers :=
            ["Provide DSM-5-TR diagnosis with F-code, severity specifier, and clinical rationale for diagnosis"] } := by
  decide

/-- Witness for the amended C9 at a concrete text. -/
theorem c9_witness :
    (inc "assessment" "assessment" = true ∧
      hasDSMPattern "assessment" = false ∧
      inc "assessment" "dsm" = false ∧
      inc "assessment" "mild" = false ∧
      inc "assessment" "moderate" = false ∧
      inc "assessment" "severe" = false) ∧
    ∃ f, (analyzeSOAPContent "assessment"
        (detectNoteFormat "assessment" NoteType.SOAP).foundSections "GA").get? 2 = some f ∧
      f.sectionLabel = "Assessment" ∧ 2 ≤ f.issues.length ∧ f.status = Status.nonCompliant :=
  ⟨by decide, c9_amended_assessment_noncompliant "assessment" "GA" (by decide) (by decide)
    (by decide) (by decide) (by decide) (by decide)⟩

/-- C1: for every note type, when the text matches none of the required
section keywords (synonym rules included), the detector reports the format
invalid, and the analysis still returns a normal result object — the
designated unsupported-format result with confidence 0, risk High, overall
score 0, and empty domain and finding lists — rather than failing. -/
theorem c1_zero_keywords_unsupported_result (text st py : String) (ty : NoteType)
    (h1 : jsTrim text ≠ "") (h2 : st ≠ "") (h3 : py ≠ "")
    (hz : ∀ s ∈ formatConfigs ty, sectionMatches (lowerStr text) s = false) :
    (detectNoteFormat text ty).isValidFormat = false ∧
    ∃ r, analyzeNote text st py ty = some r ∧
      r.detectedFormat = "Invalid " ++ noteTypeName ty ++ " format" ∧
      r.confidence = 0 ∧ r.riskLevel = RiskLevel.High ∧ r.overallScore = 0 ∧
      r.complianceDomains = [] ∧ r.sectionFindings = [] := by
  have hfil : (formatConfigs ty).filter (fun s => sectionMatches (lowerStr text) s) = [] := by
    rw [List.filter_eq_nil_iff]
    intro a ha
    simp [hz a ha]
  have hv : (detectNoteFormat text ty).isValidFormat = false := by
    simp [detectNoteFormat, hfil]
  exact ⟨hv, invalidResult st ty (detectNoteFormat text ty),
    analyzeNote_run_invalid text st py ty h1 h2 h3 hv, rfl, rfl, rfl, rfl, rfl, rfl⟩

/-- Witness for C1 at a concrete keyword-free text. -/
theorem c1_witness :
    (jsTrim "zzz" ≠ "" ∧ "GA" ≠ "" ∧ "medicaid" ≠ "" ∧
      ∀ s ∈ formatConfigs NoteType.SOAP, sectionMatches (lowerStr "zzz") s = false) ∧
    ((detectNoteFormat "zzz" NoteType.SOAP).isValidFormat = false ∧
      ∃ r, analyzeNote "zzz" "GA" "medicaid" NoteType.SOAP = some r ∧
        r.detectedFormat = "Invalid " ++ noteTypeName NoteType.SOAP ++ " format" ∧
        r.confidence = 0 ∧ r.riskLevel = RiskLevel.High ∧ r.overallScore = 0 ∧
        r.complianceDomains = [] ∧ r.sectionFindings = []) :=
  ⟨⟨by decide, by decide, by decide, by decide⟩,
    c1_zero_keywords_unsupported_result "zzz" "GA" "medicaid" NoteType.SOAP
      (by decide) (by decide) (by decide) (by decide)⟩

/-- C5 counterexample: the claim says every domain score is the overall
score shifted by a constant in [-20, +5] and clamped to a floor in
[40, 60], which forces every domain score to be at least 40. In the run
below (a valid SOAP analysis with detector score 25) the domain scores are
[60, 25, 30, 50, 40]: "Documentation Completeness" is 25 (no clamp at all)
and "Individualization Requirements" is 30 (capped above at 100, not
floored), both below 40. -/
theorem c5_counterexample :
    (analyzeNote "plan" "GA" "medicaid" NoteType.SOAP).map
        (fun r => r.complianceDomains.map (fun d => d.score)) =
      some [60, 25, 30, 50, 40] ∧
    ((25 : ℤ) < 40 ∧ (30 : ℤ) < 40) := by
  decide

/-- C5 (amended): in every valid-format analysis the five domain scores are
exactly `[max 60 (s-10), s, min 100 (s+5), max 50 (s-15), max 40 (s-20)]`
where `s` is the detector's overall score: three domains are clamped below
(floors 60, 50, 40), one is the overall score unchanged, and one is shifted
by +5 and clamped above at 100. -/
theorem c5_amended_domain_formulas (text st py : String) (ty : NoteType)
    (h1 : jsTrim text ≠ "") (h2 : st ≠ "") (h3 : py ≠ "")
    (hv : (detectNoteFormat text ty).isValidFormat = true) :
    ∃ r, analyzeNote text st py ty = some r ∧
      r.complianceDomains.map (fun d => d.score) =
        [max 60 ((detectNoteFormat text ty).overallScore - 10),
         (detectNoteFormat text ty).overallScore,
         min 100 ((detectNoteFormat text ty).overallScore + 5),
         max 50 ((detectNoteFormat text ty).overallScore - 15),
         max 40 ((detectNoteFormat text ty).overallScore - 20)] := by
  refine ⟨_, analyzeNote_run_valid text st py ty h1 h2 h3 hv, ?_⟩
  simp [validResult, analyzeComplianceDomains]

/-- Witness for the amended C5 at a complete SOAP note. -/
theorem c5_witness :
    (jsTrim "subjective objective assessment plan" ≠ "" ∧ "GA" ≠ "" ∧ "medicaid" ≠ "" ∧
      (detectNoteFormat "subjective objective assessment plan" NoteType.SOAP).isValidFormat = true) ∧
    ∃ r, analyzeNote "subjective objective assessment plan" "GA" "medicaid" NoteType.SOAP = some r ∧
      r.complianceDomains.map (fun d => d.score) =
        [max 60 ((detectNoteFormat "subjective objective assessment plan" NoteType.SOAP).overallScore - 10),
         (detectNoteFormat "subjective objective assessment plan" NoteType.SOAP).overallScore,
         min 100 ((detectNoteFormat "subjective objective assessment plan" NoteType.SOAP).overallScore + 5),
         max 50 ((detectNoteFormat "subjective objective assessment plan" NoteType.SOAP).overallScore - 15),
         max 40 ((detectNoteFormat "subjective objective assessment plan" NoteType.SOAP).overallScore - 20)] :=
  ⟨⟨by decide, by decide, by decide, by decide⟩,
    c5_amended_domain_formulas "subjective objective assessment plan" "GA" "medicaid"
      NoteType.SOAP (by decide) (by decide) (by decide) (by decide)⟩

/-- The valid-branch `overallScore` is `Math.round((detection.overallScore +
Math.round(domainSum / domainCount)) / 2)` in rational form. -/
theorem validResult_overallScore_spec (noteText st py : String) (ty : NoteType)
    (d : DetectionResult) :
    (validResult noteText st py ty d).overallScore =
      jsRound (((d.overallScore : ℚ) +
        ((jsRound ((domainScoreSum (analyzeComplianceDomains
              (analyzeSectionContent noteText d.foundSections st ty) d.overallScore) : ℚ) /
            ((analyzeComplianceDomains (analyzeSectionContent noteText d.foundSections st ty)
              d.overallScore).length : ℚ))) : ℚ)) / 2) := by
  simp only [validResult, Rat.mkRat_eq_div]
  congr 1
  push_cast
  ring

/-- The valid-branch risk level is cut from the adjusted overall score at
80 and 65. -/
theorem validResult_riskLevel_spec (noteText st py : String) (ty : NoteType)
    (d : DetectionResult) :
    (validResult noteText st py ty d).riskLevel =
      (if 80 ≤ (validResult noteText st py ty d).overallScore then RiskLevel.Low
       else if 65 ≤ (validResult noteText st py ty d).overallScore then RiskLevel.Medium
       else RiskLevel.High) := by
  simp only [validResult]

/-- C3: in every valid-format analysis the assembler's adjusted overall
score is the (rounded) simple average of the detector's confidence-derived
score and the (rounded) mean of the five domain scores, and the final risk
tier is cut on that adjusted score at fixed thresholds: Low when it is at
least 80, Medium when it is at least 65 and below 80, and High otherwise. -/
theorem c3_adjusted_score_and_risk (text st py : String) (ty : NoteType)
    (h1 : jsTrim text ≠ "") (h2 : st ≠ "") (h3 : py ≠ "")
    (hv : (detectNoteFormat text ty).isValidFormat = true) :
    ∃ r, analyzeNote text st py ty = some r ∧
      r.overallScore =
        jsRound ((((detectNoteFormat text ty).overallScore : ℚ) +
          ((jsRound ((domainScoreSum (analyzeComplianceDomains
                (analyzeSectionContent text (detectNoteFormat text ty).foundSections st ty)
                (detectNoteFormat text ty).overallScore) : ℚ) /
              ((analyzeComplianceDomains
                (analyzeSectionContent text (detectNoteFormat text ty).foundSections st ty)
                (detectNoteFormat text ty).overallScore).length : ℚ))) : ℚ)) / 2) ∧
      r.riskLevel =
        (if 80 ≤ r.overallScore then RiskLevel.Low
         else if 65 ≤ r.overallScore then RiskLevel.Medium
         else RiskLevel.High) :=
  ⟨validResult text st py ty (detectNoteFormat text ty),
    analyzeNote_run_valid text st py ty h1 h2 h3 hv,
    validResult_overallScore_spec text st py ty (detectNoteFormat text ty),
    validResult_riskLevel_spec text st py ty (detectNoteFormat text ty)⟩

/-- Witness for C3 at a concrete valid SOAP run. -/
theorem c3_witness :
    (jsTrim "plan" ≠ "" ∧ "GA" ≠ "" ∧ "medicaid" ≠ "" ∧
      (detectNoteFormat "plan" NoteType.SOAP).isValidFormat = true) ∧
    ∃ r, analyzeNote "plan" "GA" "medicaid" NoteType.SOAP = some r ∧
      r.overallScore =
        jsRound ((((detectNoteFormat "plan" NoteType.SOAP).overallScore : ℚ) +
          ((jsRound ((domainScoreSum (analyzeComplianceDomains
                (analyzeSectionContent "plan"
                  (detectNoteFormat "plan" NoteType.SOAP).foundSections "GA" NoteType.SOAP)
                (detectNoteFormat "plan" NoteType.SOAP).overallScore) : ℚ) /
              ((analyzeComplianceDomains
                (analyzeSectionContent "plan"
                  (detectNoteFormat "plan" NoteType.SOAP).foundSections "GA" NoteType.SOAP)
                (detectNoteFormat "plan" NoteType.SOAP).overallScore).length : ℚ))) : ℚ)) / 2) ∧
      r.riskLevel =
        (if 80 ≤ r.overallScore then RiskLevel.Low
         else if 65 ≤ r.overallScore then RiskLevel.Medium
         else RiskLevel.High) :=
  ⟨⟨by decide, by decide, by decide, by decide⟩,
    c3_adjusted_score_and_risk "plan" "GA" "medicaid" NoteType.SOAP
      (by decide) (by decide) (by decide) (by decide)⟩

/-- The detector's overall score always lies in [0, 100]. -/
theorem detect_overallScore_bounds (text : String) (ty : NoteType) :
    0 ≤ (detectNoteFormat text ty).overallScore ∧
      (detectNoteFormat text ty).overallScore ≤ 100 := by
  have hlen : ((formatConfigs ty).filter (fun s => sectionMatches (lowerStr text) s)).length ≤
      (formatConfigs ty).length := List.length_filter_le _ _
  have hpos : 0 < (formatConfigs ty).length := by cases ty <;> simp [formatConfigs]
  simp only [detectNoteFormat, Rat.mkRat_eq_div]
  constructor
  · apply jsRound_nonneg
    positivity
  · apply jsRound_le
    rw [div_le_iff₀ (by exact_mod_cast hpos)]
    have hc : (((formatConfigs ty).filter (fun s => sectionMatches (lowerStr text) s)).length : ℚ) ≤
        ((formatConfigs ty).length : ℚ) := by exact_mod_cast hlen
    push_cast
    linarith

/-- The sum of the five domain scores, in closed form. -/
theorem domainScoreSum_eq (sf : List SectionFinding) (s : ℤ) :
    domainScoreSum (analyzeComplianceDomains sf s) =
      max 60 (s - 10) + s + min 100 (s + 5) + max 50 (s - 15) + max 40 (s - 20) := by
  simp only [domainScoreSum, analyzeComplianceDomains, List.foldl_cons, List.foldl_nil]
  omega

/-- Each of the five domain scores lies in [0, 100] when the input score does. -/
theorem domains_score_bounds (sf : List SectionFinding) (s : ℤ)
    (h0 : 0 ≤ s) (h1 : s ≤ 100) :
    ∀ d ∈ analyzeComplianceDomains sf s, 0 ≤ d.score ∧ d.score ≤ 100 := by
  intro d hd
  simp only [analyzeComplianceDomains, List.mem_cons, List.not_mem_nil, or_false] at hd
  rcases hd with rfl | rfl | rfl | rfl | rfl <;> dsimp <;> omega

/-- C6: for every analysis run that passes the input guard — valid or
invalid format — the result's overall score and every domain score are
integers (they live in `ℤ` by construction) lying in [0, 100]. -/
theorem c6_scores_in_range (text st py : String) (ty : NoteType)
    (h1 : jsTrim text ≠ "") (h2 : st ≠ "") (h3 : py ≠ "") :
    ∃ r, analyzeNote text st py ty = some r ∧
      (0 ≤ r.overallScore ∧ r.overallScore ≤ 100) ∧
      ∀ d ∈ r.complianceDomains, 0 ≤ d.score ∧ d.score ≤ 100 := by
  obtain ⟨hs0, hs1⟩ := detect_overallScore_bounds text ty
  cases hv : (detectNoteFormat text ty).isValidFormat
  case false =>
    refine ⟨_, analyzeNote_run_invalid text st py ty h1 h2 h3 hv, ?_, ?_⟩
    · simp [invalidResult]
    · simp [invalidResult]
  case true =>
    refine ⟨_, analyzeNote_run_valid text st py ty h1 h2 h3 hv, ?_, ?_⟩
    · rw [validResult_overallScore_spec]
      set s := (detectNoteFormat text ty).overallScore with hs
      set doms := analyzeComplianceDomains
        (analyzeSectionContent text (detectNoteFormat text ty).foundSections st ty) s with hdoms
      have hlen : ((doms.length : ℕ) : ℚ) = 5 := by
        rw [hdoms]
        simp [analyzeComplianceDomains]
      have hsum0 : 0 ≤ domainScoreSum doms := by
        rw [hdoms, domainScoreSum_eq]
        omega
      have hsum1 : domainScoreSum doms ≤ 500 := by
        rw [hdoms, domainScoreSum_eq]
        omega
      have havg0 : 0 ≤ jsRound ((domainScoreSum doms : ℚ) / ((doms.length : ℕ) : ℚ)) := by
        apply jsRound_nonneg
        rw [hlen]
        have hc : (0 : ℚ) ≤ (domainScoreSum doms : ℚ) := by exact_mod_cast hsum0
        linarith
      have havg1 : jsRound ((domainScoreSum doms : ℚ) / ((doms.length : ℕ) : ℚ)) ≤ 100 := by
        apply jsRound_le
        rw [hlen, div_le_iff₀ (by norm_num)]
        have hc : (domainScoreSum doms : ℚ) ≤ 500 := by exact_mod_cast hsum1
        push_cast
        linarith
      constructor
      · apply jsRound_nonneg
        have ha : (0 : ℚ) ≤ (s : ℚ) := by exact_mod_cast hs0
        have hb : (0 : ℚ) ≤
            ((jsRound ((domainScoreSum doms : ℚ) / ((doms.length : ℕ) : ℚ))) : ℚ) := by
          exact_mod_cast havg0
        linarith
      · apply jsRound_le
        rw [div_le_iff₀ (by norm_num)]
        have ha : (s : ℚ) ≤ 100 := by exact_mod_cast hs1
        have hb : ((jsRound ((domainScoreSum doms : ℚ) / ((doms.length : ℕ) : ℚ))) : ℚ) ≤ 100 := by
          exact_mod_cast havg1
        push_cast
        linarith
    · have hb := domains_score_bounds
        (analyzeSectionContent text (detectNoteFormat text ty).foundSections st ty)
        (detectNoteFormat text ty).overallScore hs0 hs1
      simpa [validResult] using hb

/-- Witness for C6 at a concrete run. -/
theorem c6_witness :
    (jsTrim "plan" ≠ "" ∧ "NY" ≠ "" ∧ "medicare" ≠ "") ∧
    ∃ r, analyzeNote "plan" "NY" "medicare" NoteType.SOAP = some r ∧
      (0 ≤ r.overallScore ∧ r.overallScore ≤ 100) ∧
      ∀ d ∈ r.complianceDomains, 0 ≤ d.score ∧ d.score ≤ 100 :=
  ⟨⟨by decide, by decide, by decide⟩,
    c6_scores_in_range "plan" "NY" "medicare" NoteType.SOAP
      (by decide) (by decide) (by decide)⟩

/-- C7: every produced result has a duplicate-free recommendation list, and
in the valid-format case that list is exactly the concatenation of the
missing-section prompts, the per-section correction strings, and the fixed
jurisdiction/payer boilerplate, deduplicated by exact string match (first
occurrence kept). -/
theorem c7_recommendations_dedup (text st py : String) (ty : NoteType)
    (h1 : jsTrim text ≠ "") (h2 : st ≠ "") (h3 : py ≠ "") :
    ∃ r, analyzeNote text st py ty = some r ∧ r.recommendations.Nodup ∧
      ((detectNoteFormat text ty).isValidFormat = true →
        r.recommendations = jsDedup (
          (detectNoteFormat text ty).missingSections.map
              (fun s => "❌ Add missing " ++ s ++ " section with comprehensive documentation")
            ++ (analyzeSectionContent text (detectNoteFormat text ty).foundSections st ty).flatMap
                (fun f => f.triggers)
            ++ ["Ensure full compliance with " ++ st ++ " state regulations",
                "Verify " ++ py ++ " billing and documentation requirements",
                "Include provider signature, credentials, and date",
                "Review against audit checklist before submission"])) := by
  cases hv : (detectNoteFormat text ty).isValidFormat
  case false =>
    refine ⟨_, analyzeNote_run_invalid text st py ty h1 h2 h3 hv, ?_, ?_⟩
    · cases ty <;> simp only [invalidResult, noteTypeName] <;> decide
    · intro h
      exact absurd h (by simp [hv])
  case true =>
    refine ⟨_, analyzeNote_run_valid text st py ty h1 h2 h3 hv, ?_, fun _ => ?_⟩
    · simp only [validResult]
      exact jsDedup_nodup _
    · rfl

/-- Witness for C7 at a concrete run. -/
theorem c7_witness :
    (jsTrim "plan" ≠ "" ∧ "GA" ≠ "" ∧ "medicaid" ≠ "") ∧
    ∃ r, analyzeNote "plan" "GA" "medicaid" NoteType.SOAP = some r ∧
      r.recommendations.Nodup ∧
      ((detectNoteFormat "plan" NoteType.SOAP).isValidFormat = true →
        r.recommendations = jsDedup (
          (detectNoteFormat "plan" NoteType.SOAP).missingSections.map
              (fun s => "❌ Add missing " ++ s ++ " section with comprehensive documentation")
            ++ (analyzeSectionContent "plan"
                (detectNoteFormat "plan" NoteType.SOAP).foundSections "GA" NoteType.SOAP).flatMap
                (fun f => f.triggers)
            ++ ["Ensure full compliance with " ++ "GA" ++ " state regulations",
                "Verify " ++ "medicaid" ++ " billing and documentation requirements",
                "Include provider signature, credentials, and date",
                "Review against audit checklist before submission"])) :=
  ⟨⟨by decide, by decide, by decide⟩,
    c7_recommendations_dedup "plan" "GA" "medicaid" NoteType.SOAP
      (by decide) (by decide) (by decide)⟩

/-- C8: for a fixed note text and note type, any two guard-passing choices
of jurisdiction (state) and payer produce identical detection label,
confidence, risk level, overall score, compliance domains, section findings
and missing sections; the selections only reach the recommendation and
reference strings. -/
theorem c8_state_payer_independence (text : String) (ty : NoteType)
    (st1 py1 st2 py2 : String)
    (h1 : jsTrim text ≠ "") (h2 : st1 ≠ "") (h3 : py1 ≠ "")
    (h4 : st2 ≠ "") (h5 : py2 ≠ "") :
    ∃ r1 r2, analyzeNote text st1 py1 ty = some r1 ∧
      analyzeNote text st2 py2 ty = some r2 ∧
      r1.detectedFormat = r2.detectedFormat ∧ r1.confidence = r2.confidence ∧
      r1.riskLevel = r2.riskLevel ∧ r1.overallScore = r2.overallScore ∧
      r1.complianceDomains = r2.complianceDomains ∧
      r1.sectionFindings = r2.sectionFindings ∧
      r1.missingSections = r2.missingSections := by
  cases hv : (detectNoteFormat text ty).isValidFormat
  case false =>
    exact ⟨_, _, analyzeNote_run_invalid text st1 py1 ty h1 h2 h3 hv,
      analyzeNote_run_invalid text st2 py2 ty h1 h4 h5 hv,
      rfl, rfl, rfl, rfl, rfl, rfl, rfl⟩
  case true =>
    have hsf := analyzeSectionContent_state_irrel text
      (detectNoteFormat text ty).foundSections st1 st2 ty
    refine ⟨_, _, analyzeNote_run_valid text st1 py1 ty h1 h2 h3 hv,
      analyzeNote_run_valid text st2 py2 ty h1 h4 h5 hv,
      rfl, rfl, ?_, ?_, ?_, ?_, rfl⟩
    · simp only [validResult, hsf]
    · simp only [validResult, hsf]
    · simp only [validResult, hsf]
    · simp only [validResult, hsf]

/-- Witness for C8 at two concrete state/payer choices. -/
theorem c8_witness :
    (jsTrim "plan" ≠ "" ∧ "GA" ≠ "" ∧ "medicaid" ≠ "" ∧ "NY" ≠ "" ∧ "commercial" ≠ "") ∧
    ∃ r1 r2, analyzeNote "plan" "GA" "medicaid" NoteType.SOAP = some r1 ∧
      analyzeNote "plan" "NY" "commercial" NoteType.SOAP = some r2 ∧
      r1.detectedFormat = r2.detectedFormat ∧ r1.confidence = r2.confidence ∧
      r1.riskLevel = r2.riskLevel ∧ r1.overallScore = r2.overallScore ∧
      r1.complianceDomains = r2.complianceDomains ∧
      r1.sectionFindings = r2.sectionFindings ∧
      r1.missingSections = r2.missingSections :=
  ⟨⟨by decide, by decide, by decide, by decide, by decide⟩,
    c8_state_payer_independence "plan" NoteType.SOAP "GA" "medicaid" "NY" "commercial"
      (by decide) (by decide) (by decide) (by decide) (by decide)⟩
